import Mathlib

/-!
Shallow embedding of the repository's data-access layer:
* `useSupabaseData` (the six-collection data hook with `fetchData` and five
  mutators), modelled as pure state transformers over an explicit `Store`
  state, an explicit `RemoteDB` (the remote store reached through the
  query/mutation client), and explicit success/failure outcomes for each
  remote round trip;
* `useAuth.tsx` (the authentication context), modelled as a small state
  machine over the provider's user value and subscription flag.

Remote calls are asynchronous in the source but strictly sequential within
one call (each is awaited before the next), so a call is embedded as a pure
function of its inputs, the remote state, and the outcome of each round trip.
-/

/-- Lexicographic comparison of strings on their character data, standing in
for the remote platform's column ordering used by `.order(column)`. -/
def strDataLe : List Char → List Char → Bool
  | [], _ => true
  | _ :: _, [] => false
  | a :: as, b :: bs =>
    if a.toNat < b.toNat then true
    else if b.toNat < a.toNat then false
    else strDataLe as bs

/-- String comparison used as the sort key order of remote queries. -/
def strLe (a b : String) : Bool := strDataLe a.data b.data

/-- Stable insertion of an element into a list sorted by `le`. -/
def insertLe (le : α → α → Bool) (x : α) : List α → List α
  | [] => [x]
  | y :: ys => if le x y then x :: y :: ys else y :: insertLe le x ys

/-- Stable sort by `le`; models the remote query's `order` clause. -/
def sortLe (le : α → α → Bool) : List α → List α
  | [] => []
  | x :: xs => insertLe le x (sortLe le xs)

/-- Remote `.order(key)` ascending. -/
def orderByAsc (key : α → String) (l : List α) : List α :=
  sortLe (fun a b => strLe (key a) (key b)) l

/-- Remote `.order(key, \x7b ascending: false \x7d)` descending. -/
def orderByDesc (key : α → String) (l : List α) : List α :=
  sortLe (fun a b => strLe (key b) (key a)) l

/-- Row of the `registrations` table (interface `Registration`).
`status` is the runtime string of the TS union `pending | approved | rejected`. -/
structure Registration where
  id : String
  full_name : String
  mobile_number : String
  whatsapp_number : String
  address : String
  panchayath_details : String
  category : String
  status : String
  submitted_at : String
  approved_at : Option String := none
  unique_id : Option String := none
  user_id : Option String := none
deriving Repr, DecidableEq

/-- Row of the `categories` table (interface `Category`). -/
structure Category where
  id : String
  name : String
  label : String
  actual_fee : Int
  offer_fee : Int
  has_offer : Bool
  image_url : Option String := none
deriving Repr, DecidableEq

/-- Row of the `panchayaths` table (interface `Panchayath`). -/
structure Panchayath where
  id : String
  malayalam_name : String
  english_name : String
  pincode : Option String := none
  district : String
deriving Repr, DecidableEq

/-- Row of the `announcements` table (interface `Announcement`). -/
structure Announcement where
  id : String
  title : String
  content : String
  link : Option String := none
  category : Option String := none
  is_active : Bool
  created_at : String
deriving Repr, DecidableEq

/-- Row of the `photo_gallery` table (interface `PhotoGalleryItem`). -/
structure PhotoGalleryItem where
  id : String
  title : String
  image_url : String
  description : Option String := none
  category : String
  uploaded_at : String
deriving Repr, DecidableEq

/-- Row of the `push_notifications` table (interface `PushNotification`).
`target_audience` is the raw runtime string; the TS union is only enforced by
the runtime filter in `fetchData`, so rows with any string can come back from
the remote query. -/
structure PushNotification where
  id : String
  title : String
  content : String
  target_audience : String
  target_value : Option String := none
  scheduled_at : Option String := none
  sent_at : Option String := none
  is_active : Bool
  created_at : String
deriving Repr, DecidableEq

/-- The remote store's tables, reached through the query/mutation client. -/
structure RemoteDB where
  categories : List Category := []
  panchayaths : List Panchayath := []
  announcements : List Announcement := []
  photo_gallery : List PhotoGalleryItem := []
  registrations : List Registration := []
  push_notifications : List PushNotification := []
deriving Repr, DecidableEq

/-- Local state of `useSupabaseData`: the six `useState` collections plus the
`loading` flag. -/
structure Store where
  registrations : List Registration := []
  categories : List Category := []
  panchayaths : List Panchayath := []
  announcements : List Announcement := []
  photoGallery : List PhotoGalleryItem := []
  notifications : List PushNotification := []
  loading : Bool := true
deriving Repr, DecidableEq

/-- Result of `supabase.from('categories').select('*').order('name')`. -/
def queryCategories (db : RemoteDB) : List Category :=
  orderByAsc Category.name db.categories

/-- Result of `.from('panchayaths').select('*').order('malayalam_name')`. -/
def queryPanchayaths (db : RemoteDB) : List Panchayath :=
  orderByAsc Panchayath.malayalam_name db.panchayaths

/-- Result of `.from('announcements').select('*').eq('is_active', true)
.order('created_at', \x7b ascending: false \x7d)`. -/
def queryAnnouncements (db : RemoteDB) : List Announcement :=
  orderByDesc Announcement.created_at (db.announcements.filter (fun a => a.is_active))

/-- Result of `.from('photo_gallery').select('*').order('uploaded_at',
\x7b ascending: false \x7d)`. -/
def queryPhotoGallery (db : RemoteDB) : List PhotoGalleryItem :=
  orderByDesc PhotoGalleryItem.uploaded_at db.photo_gallery

/-- Result of `.from('registrations').select('*').order('submitted_at',
\x7b ascending: false \x7d)`. -/
def queryRegistrations (db : RemoteDB) : List Registration :=
  orderByDesc Registration.submitted_at db.registrations

/-- Result of `.from('push_notifications').select('*').order('created_at',
\x7b ascending: false \x7d)`. -/
def queryNotifications (db : RemoteDB) : List PushNotification :=
  orderByDesc PushNotification.created_at db.push_notifications

/-- The runtime type-guard filter in `fetchData`:
`['all', 'category', 'panchayath', 'admin'].includes(notif.target_audience)`. -/
def validAudience (n : PushNotification) : Bool :=
  ["all", "category", "panchayath", "admin"].contains n.target_audience

/-- Success (`error` null) or failure (`error` non-null) of each of the six
read queries issued by one `fetchData` call. A flag for a query that is never
issued (because an earlier one failed) is ignored. -/
structure FetchOutcome where
  categoriesOk : Bool
  panchayathsOk : Bool
  announcementsOk : Bool
  galleryOk : Bool
  registrationsOk : Bool
  notificationsOk : Bool
deriving Repr, DecidableEq

/-- The outcome in which all six read queries succeed. -/
def fetchAllOk : FetchOutcome :=
  { categoriesOk := true, panchayathsOk := true, announcementsOk := true,
    galleryOk := true, registrationsOk := true, notificationsOk := true }

/-- Embedding of `fetchData`: sets `loading := true`, issues the six queries
in source order, assigns each result as it arrives, and on the first failing
query throws to the `catch` block (skipping every remaining assignment); the
`finally` block sets `loading := false` on every path. The catch block's
`console.error` and error toast have no effect on the store and are not
modelled. -/
def fetchData (db : RemoteDB) (f : FetchOutcome) (s0 : Store) : Store :=
  let s := { s0 with loading := true }
  let body :=
    if f.categoriesOk then
      let s := { s with categories := queryCategories db }
      if f.panchayathsOk then
        let s := { s with panchayaths := queryPanchayaths db }
        if f.announcementsOk then
          let s := { s with announcements := queryAnnouncements db }
          if f.galleryOk then
            let s := { s with photoGallery := queryPhotoGallery db }
            if f.registrationsOk then
              let s := { s with registrations := queryRegistrations db }
              if f.notificationsOk then
                { s with notifications := (queryNotifications db).filter validAudience }
              else s
            else s
          else s
        else s
      else s
    else s
  { body with loading := false }

/-- Input of `createRegistration`:
`Omit<Registration, 'id' | 'submitted_at' | 'user_id'>`. -/
structure RegistrationInput where
  full_name : String
  mobile_number : String
  whatsapp_number : String
  address : String
  panchayath_details : String
  category : String
  status : String
  approved_at : Option String := none
  unique_id : Option String := none
deriving Repr, DecidableEq

/-- The row produced by a successful remote
`.insert([registrationData]).select().single()`: the input's fields plus the
server-assigned `id` and `submitted_at` (per the external interface contract,
`insert(record) -> record or error`). -/
def insertedRegistration (input : RegistrationInput) (idv ts : String) : Registration :=
  { id := idv
    full_name := input.full_name
    mobile_number := input.mobile_number
    whatsapp_number := input.whatsapp_number
    address := input.address
    panchayath_details := input.panchayath_details
    category := input.category
    status := input.status
    submitted_at := ts
    approved_at := input.approved_at
    unique_id := input.unique_id
    user_id := none }

/-- Embedding of `createRegistration`. `ins` is the remote insert outcome:
`some (id, ts)` when the insert succeeds with server-assigned id and
timestamp, `none` when it returns an error. On success the hook toasts,
awaits `fetchData`, and returns the inserted row; the `catch` block logs,
toasts, and returns `null` (the toasts and log have no effect on the store).
Returns (returned value, remote store after the call, local store after the
call). -/
def createRegistration (ins : Option (String × String)) (f : FetchOutcome)
    (db : RemoteDB) (input : RegistrationInput) (s : Store) :
    Option Registration × RemoteDB × Store :=
  match ins with
  | some (idv, ts) =>
    let r := insertedRegistration input idv ts
    let db' := { db with registrations := db.registrations ++ [r] }
    (some r, db', fetchData db' f s)
  | none => (none, db, s)

/-- The TS union `'approved' | 'rejected'` of `updateRegistrationStatus`. -/
inductive UpdStatus
  | approved
  | rejected
deriving Repr, DecidableEq

/-- Runtime string of an `UpdStatus` value. -/
def UpdStatus.str : UpdStatus → String
  | .approved => "approved"
  | .rejected => "rejected"

/-- The `updateData` patch object built by `updateRegistrationStatus`:
always `status` and `approved_at`; `unique_id` only when `if (uniqueId)` is
truthy, i.e. when `uniqueId` is present and not the empty string. -/
structure RegPatch where
  status : String
  approved_at : String
  unique_id : Option String := none
deriving Repr, DecidableEq

/-- Builds the `updateData` object of `updateRegistrationStatus`.
JS truthiness: `if (uniqueId)` is false for `undefined` and for `""`. -/
def buildRegPatch (status : UpdStatus) (now : String) (uniqueId : Option String) :
    RegPatch :=
  { status := status.str
    approved_at := now
    unique_id :=
      match uniqueId with
      | some u => if u = "" then none else some u
      | none => none }

/-- Remote semantics of applying a `RegPatch` to one row: fields present in
the patch are overwritten, fields absent from the patch are kept. -/
def applyRegPatch (p : RegPatch) (r : Registration) : Registration :=
  { r with
    status := p.status
    approved_at := some p.approved_at
    unique_id :=
      match p.unique_id with
      | some u => some u
      | none => r.unique_id }

/-- Remote semantics of `.from('registrations').update(patch).eq('id', id)`:
every row whose `id` matches is patched, every other row is untouched. -/
def remoteUpdateRegistrations (regs : List Registration) (idv : String)
    (p : RegPatch) : List Registration :=
  regs.map (fun r => if r.id = idv then applyRegPatch p r else r)

/-- Embedding of `updateRegistrationStatus`. `writeOk` is the remote update
outcome; `now` is `new Date().toISOString()`. On success the hook toasts,
awaits `fetchData`, and returns `true`; the `catch` block logs, toasts, and
returns `false`. Returns (returned boolean, remote store, local store). -/
def updateRegistrationStatus (now : String) (writeOk : Bool) (f : FetchOutcome)
    (db : RemoteDB) (idv : String) (status : UpdStatus) (uniqueId : Option String)
    (s : Store) : Bool × RemoteDB × Store :=
  if writeOk then
    let db' := { db with
      registrations := remoteUpdateRegistrations db.registrations idv
        (buildRegPatch status now uniqueId) }
    (true, db', fetchData db' f s)
  else
    (false, db, s)

/-- Remote semantics of `.from('registrations').delete().eq('id', id)`. -/
def remoteDeleteRegistrations (regs : List Registration) (idv : String) :
    List Registration :=
  regs.filter (fun r => r.id ≠ idv)

/-- Embedding of `deleteRegistration`: one remote delete keyed by id; on
success toasts, awaits `fetchData`, returns `true`; the `catch` block returns
`false`. -/
def deleteRegistration (writeOk : Bool) (f : FetchOutcome) (db : RemoteDB)
    (idv : String) (s : Store) : Bool × RemoteDB × Store :=
  if writeOk then
    let db' := { db with registrations := remoteDeleteRegistrations db.registrations idv }
    (true, db', fetchData db' f s)
  else
    (false, db, s)

/-- Remote semantics of
`.from('categories').update(\x7b image_url \x7d).eq('name', categoryName)`. -/
def remoteUpdateCategoryImage (cats : List Category) (categoryName imageUrl : String) :
    List Category :=
  cats.map (fun c => if c.name = categoryName then { c with image_url := some imageUrl } else c)

/-- Embedding of `updateCategoryImage`: one remote update keyed by category
name (not id); on success toasts, awaits `fetchData`, returns `true`; the
`catch` block returns `false`. -/
def updateCategoryImage (writeOk : Bool) (f : FetchOutcome) (db : RemoteDB)
    (categoryName imageUrl : String) (s : Store) : Bool × RemoteDB × Store :=
  if writeOk then
    let db' := { db with
      categories := remoteUpdateCategoryImage db.categories categoryName imageUrl }
    (true, db', fetchData db' f s)
  else
    (false, db, s)

/-- Remote semantics of `.from('categories').update(\x7b actual_fee,
offer_fee, has_offer \x7d).eq('name', categoryName)`. -/
def remoteUpdateCategoryFees (cats : List Category) (categoryName : String)
    (actualFee offerFee : Int) (hasOffer : Bool) : List Category :=
  cats.map (fun c =>
    if c.name = categoryName then
      { c with actual_fee := actualFee, offer_fee := offerFee, has_offer := hasOffer }
    else c)

/-- Embedding of `updateCategoryFees`: one remote update of the three fee
fields keyed by category name; on success toasts, awaits `fetchData`, returns
`true`; the `catch` block returns `false`. -/
def updateCategoryFees (writeOk : Bool) (f : FetchOutcome) (db : RemoteDB)
    (categoryName : String) (actualFee offerFee : Int) (hasOffer : Bool)
    (s : Store) : Bool × RemoteDB × Store :=
  if writeOk then
    let db' := { db with
      categories := remoteUpdateCategoryFees db.categories categoryName
        actualFee offerFee hasOffer }
    (true, db', fetchData db' f s)
  else
    (false, db, s)

/-- A remote session (the platform guarantees a session carries its user). -/
structure Session where
  user : String
deriving Repr, DecidableEq

/-- The expression `session?.user ?? null` applied to an optional session. -/
def userFromSession : Option Session → Option String
  | some sess => some sess.user
  | none => none

/-- State of the mounted `AuthProvider`: the `user` `useState` value and
whether the `onAuthStateChange` subscription is still active. -/
structure ProviderState where
  user : Option String
  subscribed : Bool
deriving Repr, DecidableEq

/-- Mount effect of `AuthProvider`: the one `getSession()` round trip
resolves with `initial` and its `then` callback runs
`setUser(data?.session?.user ?? null)`; `onAuthStateChange` is subscribed. -/
def mountProvider (initial : Option Session) : ProviderState :=
  { user := userFromSession initial, subscribed := true }

/-- Delivery of one session-change push event: while the subscription is
active the callback runs `setUser(session?.user ?? null)`; after
`unsubscribe()` the platform delivers nothing, so the state is unchanged. -/
def deliverEvent (p : ProviderState) (ev : Option Session) : ProviderState :=
  if p.subscribed then { p with user := userFromSession ev } else p

/-- The `useEffect` cleanup: `listener.subscription.unsubscribe()`. -/
def teardownProvider (p : ProviderState) : ProviderState :=
  { p with subscribed := false }

/-- Provider state after mounting on `initial` and then receiving the given
sequence of session-change events, in order. -/
def runProvider (initial : Option Session) (events : List (Option Session)) :
    ProviderState :=
  events.foldl deliverEvent (mountProvider initial)

/-- The context value `\x7b user \x7d` passed by
`<AuthContext.Provider value=...>`. -/
structure AuthValue where
  user : Option String
deriving Repr, DecidableEq

/-- `createContext(null)`: the default context value when no provider is
present above the consumer. -/
def createContextDefault : Option AuthValue := none

/-- The value a mounted provider supplies to its descendants. -/
def providerValue (p : ProviderState) : AuthValue :=
  { user := p.user }

/-- React `useContext` semantics: the nearest provider's value when one is
present above the caller, otherwise the context's default. -/
def useContextM (default : α) (provided : Option α) : α :=
  match provided with
  | some v => v
  | none => default

/-- Embedding of the `useAuth` hook: `useContext(AuthContext)`. `provided` is
`some v` when an `AuthProvider` above the caller currently supplies `v`, and
`none` when no provider is present. -/
def useAuth (provided : Option (Option AuthValue)) : Option AuthValue :=
  useContextM createContextDefault provided

/-- Fixture: a notification row whose `target_audience` is not one of the
four recognized values. -/
def bogusNotif : PushNotification :=
  { id := "n1", title := "t", content := "c", target_audience := "everyone",
    is_active := true, created_at := "2024-01-01" }

/-- Fixture: a remote store whose only data is one malformed notification. -/
def dbBogusNotif : RemoteDB := { push_notifications := [bogusNotif] }

/-- C1 counterexample: with a remote store holding one notification whose
`target_audience` is "everyone", a fully successful `fetchData` sets the
notifications collection to the empty list, not to the remote query result
(which is the one-element list), because `fetchData` filters the query result
by `target_audience` client-side. So the notifications collection is not set
exactly to the remote query result. -/
theorem fetch_notifications_not_raw_query_cex :
    (fetchData dbBogusNotif fetchAllOk {}).notifications = [] ∧
    (fetchData dbBogusNotif fetchAllOk {}).notifications ≠ queryNotifications dbBogusNotif := by
  decide

/-- C1 (amended): for every fully successful `fetchData` call, the first five
collections are set exactly to the corresponding remote query results —
categories by name ascending, panchayaths by malayalam_name ascending,
announcements filtered to is_active and by created_at descending, gallery by
uploaded_at descending, registrations by submitted_at descending — and the
notifications collection is set to the remote query result (created_at
descending) restricted to rows whose `target_audience` is recognized, each
result's order preserved; `loading` is false on exit. -/
theorem fetch_success_sets_collections (db : RemoteDB) (s : Store) :
    (fetchData db fetchAllOk s).categories = queryCategories db ∧
    (fetchData db fetchAllOk s).panchayaths = queryPanchayaths db ∧
    (fetchData db fetchAllOk s).announcements = queryAnnouncements db ∧
    (fetchData db fetchAllOk s).photoGallery = queryPhotoGallery db ∧
    (fetchData db fetchAllOk s).registrations = queryRegistrations db ∧
    (fetchData db fetchAllOk s).notifications = (queryNotifications db).filter validAudience ∧
    (fetchData db fetchAllOk s).loading = false := by
  simp [fetchData, fetchAllOk]

/-- C2: if the k-th of the six read queries of a `fetchData` call fails, the
resulting store keeps exactly the newly fetched values for the collections
fetched before the k-th query, keeps the previous values for the k-th and all
later collections, and has `loading = false`; `loading` is false on exit on
every path. -/
theorem fetch_failure_frame (db : RemoteDB) (f : FetchOutcome) (s : Store) :
    (fetchData db f s).loading = false ∧
    (f.categoriesOk = false →
      fetchData db f s = { s with loading := false }) ∧
    (f.categoriesOk = true → f.panchayathsOk = false →
      fetchData db f s =
        { s with categories := queryCategories db, loading := false }) ∧
    (f.categoriesOk = true → f.panchayathsOk = true → f.announcementsOk = false →
      fetchData db f s =
        { s with categories := queryCategories db,
                 panchayaths := queryPanchayaths db, loading := false }) ∧
    (f.categoriesOk = true → f.panchayathsOk = true → f.announcementsOk = true →
        f.galleryOk = false →
      fetchData db f s =
        { s with categories := queryCategories db,
                 panchayaths := queryPanchayaths db,
                 announcements := queryAnnouncements db, loading := false }) ∧
    (f.categoriesOk = true → f.panchayathsOk = true → f.announcementsOk = true →
        f.galleryOk = true → f.registrationsOk = false →
      fetchData db f s =
        { s with categories := queryCategories db,
                 panchayaths := queryPanchayaths db,
                 announcements := queryAnnouncements db,
                 photoGallery := queryPhotoGallery db, loading := false }) ∧
    (f.categoriesOk = true → f.panchayathsOk = true → f.announcementsOk = true →
        f.galleryOk = true → f.registrationsOk = true → f.notificationsOk = false →
      fetchData db f s =
        { s with categories := queryCategories db,
                 panchayaths := queryPanchayaths db,
                 announcements := queryAnnouncements db,
                 photoGallery := queryPhotoGallery db,
                 registrations := queryRegistrations db, loading := false }) := by
  obtain ⟨c, p, a, g, r, n⟩ := f
  cases c <;> cases p <;> cases a <;> cases g <;> cases r <;> cases n <;>
    simp [fetchData]

/-- Fixture: the outcome in which only the panchayaths query fails. -/
def failPanchayaths : FetchOutcome :=
  { categoriesOk := true, panchayathsOk := false, announcementsOk := true,
    galleryOk := true, registrationsOk := true, notificationsOk := true }

/-- Witness for C2 at a concrete input: when the second query fails, only the
categories collection is refreshed and `loading` ends false. -/
theorem fetch_failure_frame_witness :
    fetchData {} failPanchayaths {} =
      { ({} : Store) with categories := queryCategories {}, loading := false } :=
  (fetch_failure_frame {} failPanchayaths {}).2.2.1 rfl rfl

/-- C3: `createRegistration` returns `none` exactly when the remote insert
fails, and when the insert succeeds with server-assigned id `idv` and
timestamp `ts` it returns a record whose fields are exactly the input's plus
that id and timestamp. Failure is signalled only by the returned sentinel:
the embedding is a total function whose `catch` branch yields `none`, so no
error is ever raised to the caller. -/
theorem create_registration_spec (ins : Option (String × String)) (f : FetchOutcome)
    (db : RemoteDB) (input : RegistrationInput) (s : Store) :
    ((createRegistration ins f db input s).1 = none ↔ ins = none) ∧
    (∀ idv ts, ins = some (idv, ts) →
      (createRegistration ins f db input s).1 = some
        { id := idv
          full_name := input.full_name
          mobile_number := input.mobile_number
          whatsapp_number := input.whatsapp_number
          address := input.address
          panchayath_details := input.panchayath_details
          category := input.category
          status := input.status
          submitted_at := ts
          approved_at := input.approved_at
          unique_id := input.unique_id
          user_id := none }) := by
  cases ins with
  | none => simp [createRegistration]
  | some pair =>
    obtain ⟨idv, ts⟩ := pair
    simp [createRegistration, insertedRegistration]

/-- Fixture: a registration input. -/
def regInputW : RegistrationInput :=
  { full_name := "A", mobile_number := "1", whatsapp_number := "2",
    address := "addr", panchayath_details := "p", category := "c",
    status := "pending" }

/-- Witness for C3 at a concrete input: a successful insert with server id
"r9" and timestamp "T1" returns the input's fields plus that id and
timestamp. -/
theorem create_registration_spec_witness :
    (createRegistration (some ("r9", "T1")) fetchAllOk {} regInputW {}).1 = some
      { id := "r9", full_name := "A", mobile_number := "1",
        whatsapp_number := "2", address := "addr", panchayath_details := "p",
        category := "c", status := "pending", submitted_at := "T1",
        approved_at := none, unique_id := none, user_id := none } :=
  (create_registration_spec (some ("r9", "T1")) fetchAllOk {} regInputW {}).2 "r9" "T1" rfl

/-- Helper: the patch built by `updateRegistrationStatus`, applied to one
row, sets `status` and `approved_at`, and sets `unique_id` only when the
supplied `uniqueId` is present and non-empty (JS truthiness of
`if (uniqueId)`); otherwise the row's `unique_id` is kept. -/
lemma applyRegPatch_buildRegPatch (status : UpdStatus) (now : String)
    (uniqueId : Option String) (r : Registration) :
    applyRegPatch (buildRegPatch status now uniqueId) r =
      { r with status := status.str, approved_at := some now,
               unique_id := if uniqueId.getD "" = "" then r.unique_id else uniqueId } := by
  cases uniqueId with
  | none => simp [applyRegPatch, buildRegPatch]
  | some u =>
    by_cases hu : u = "" <;> simp [applyRegPatch, buildRegPatch, hu]

/-- Fixture: a pending registration that already carries a unique id. -/
def regPendingOld : Registration :=
  { id := "r1", full_name := "A", mobile_number := "1", whatsapp_number := "1",
    address := "x", panchayath_details := "p", category := "c",
    status := "pending", submitted_at := "2024-01-01", unique_id := some "OLD" }

/-- Fixture: a remote store holding only `regPendingOld`. -/
def dbPendingOld : RemoteDB := { registrations := [regPendingOld] }

/-- C4 counterexample: calling `updateRegistrationStatus` with the supplied
uniqueId `some ""` leaves the target row's `unique_id` at its previous value
"OLD" instead of setting it to `""`: `if (uniqueId)` is false for the empty
string, so a supplied empty uniqueId never reaches the update patch,
contradicting the claim that a supplied uniqueId always sets the field. -/
theorem update_status_empty_uid_cex :
    ((updateRegistrationStatus "2024-02-02" true fetchAllOk dbPendingOld "r1"
        UpdStatus.approved (some "") {}).2.1.registrations.map Registration.unique_id
      = [some "OLD"]) ∧
    ¬ ((updateRegistrationStatus "2024-02-02" true fetchAllOk dbPendingOld "r1"
        UpdStatus.approved (some "") {}).2.1.registrations.map Registration.unique_id
      = [some ""]) := by
  decide

/-- C4 (amended): a successful `updateRegistrationStatus(id, status,
uniqueId?)` performs one remote update keyed by id: every row whose id
matches gets `status` set to the given value and `approved_at` set to the
current time, with `unique_id` also set when the supplied uniqueId is present
and non-empty (a missing or empty uniqueId leaves the row's `unique_id`
unchanged, by JS truthiness); every row with a different id, and every other
remote table, is left exactly unchanged. -/
theorem update_status_spec (now idv : String) (status : UpdStatus)
    (uniqueId : Option String) (f : FetchOutcome) (db : RemoteDB) (s : Store) :
    (updateRegistrationStatus now true f db idv status uniqueId s).1 = true ∧
    (updateRegistrationStatus now true f db idv status uniqueId s).2.1.registrations
      = db.registrations.map (fun r =>
          if r.id = idv then
            { r with status := status.str, approved_at := some now,
                     unique_id := if uniqueId.getD "" = "" then r.unique_id else uniqueId }
          else r) ∧
    (updateRegistrationStatus now true f db idv status uniqueId s).2.1.categories
      = db.categories ∧
    (updateRegistrationStatus now true f db idv status uniqueId s).2.1.panchayaths
      = db.panchayaths ∧
    (updateRegistrationStatus now true f db idv status uniqueId s).2.1.announcements
      = db.announcements ∧
    (updateRegistrationStatus now true f db idv status uniqueId s).2.1.photo_gallery
      = db.photo_gallery ∧
    (updateRegistrationStatus now true f db idv status uniqueId s).2.1.push_notifications
      = db.push_notifications := by
  refine ⟨rfl, ?_, rfl, rfl, rfl, rfl, rfl⟩
  show remoteUpdateRegistrations db.registrations idv (buildRegPatch status now uniqueId) = _
  unfold remoteUpdateRegistrations
  have hfun : (fun r => if r.id = idv then
        applyRegPatch (buildRegPatch status now uniqueId) r else r)
      = (fun r : Registration => if r.id = idv then
          { r with status := status.str, approved_at := some now,
                   unique_id := if uniqueId.getD "" = "" then r.unique_id else uniqueId }
          else r) := by
    funext r
    by_cases h : r.id = idv <;> simp [h, applyRegPatch_buildRegPatch]
  rw [hfun]

/-- C5: after a refresh in which the notifications query returns, every row
of the returned list whose `target_audience` is outside
all/category/panchayath/admin is excluded from the notifications collection,
and every row of the exposed notifications collection has a recognized
`target_audience`. -/
theorem notifications_audience_invariant (db : RemoteDB) (s : Store) :
    (∀ n ∈ (fetchData db fetchAllOk s).notifications, validAudience n = true) ∧
    (∀ n ∈ queryNotifications db, validAudience n = false →
      n ∉ (fetchData db fetchAllOk s).notifications) := by
  have hset : (fetchData db fetchAllOk s).notifications
      = (queryNotifications db).filter validAudience := by
    simp [fetchData, fetchAllOk]
  constructor
  · intro n hn
    rw [hset] at hn
    exact (List.mem_filter.mp hn).2
  · intro n _ hv hmem
    rw [hset] at hmem
    have := (List.mem_filter.mp hmem).2
    rw [hv] at this
    exact Bool.false_ne_true this

/-- Fixture: a notification with a recognized audience, created later than
`mixBadNotif`. -/
def mixGoodNotif : PushNotification :=
  { id := "n2", title := "t2", content := "c2", target_audience := "all",
    is_active := true, created_at := "2024-03-02" }

/-- Fixture: a notification with an unrecognized audience. -/
def mixBadNotif : PushNotification :=
  { id := "n3", title := "t3", content := "c3", target_audience := "nobody",
    is_active := true, created_at := "2024-03-01" }

/-- Fixture: a remote store holding one valid and one malformed
notification. -/
def dbMixedNotifs : RemoteDB :=
  { push_notifications := [mixGoodNotif, mixBadNotif] }

/-- Witness for C5 at a concrete input: after a successful refresh of
`dbMixedNotifs`, the valid notification is in the collection with a
recognized audience and the malformed one is excluded. -/
theorem notifications_audience_invariant_witness :
    validAudience mixGoodNotif = true ∧
    mixBadNotif ∉ (fetchData dbMixedNotifs fetchAllOk {}).notifications :=
  ⟨(notifications_audience_invariant dbMixedNotifs {}).1 mixGoodNotif (by decide),
   (notifications_audience_invariant dbMixedNotifs {}).2 mixBadNotif (by decide) (by decide)⟩

/-- C6: each of the four boolean mutators returns `true` exactly when its
single remote write succeeds; on success its resulting local store is the
refresh (`fetchData`) of the post-write remote store, and on failure the
local store is exactly the previous one. Failure is signalled only by the
returned boolean: each embedding is a total function whose `catch` branch
yields `false`, so no error is ever raised to the caller. -/
theorem mutators_return_write_outcome (ok : Bool) (f : FetchOutcome) (db : RemoteDB)
    (s : Store) (now idv cname url : String) (status : UpdStatus)
    (uniqueId : Option String) (afee ofee : Int) (ho : Bool) :
    ((updateRegistrationStatus now ok f db idv status uniqueId s).1 = true ↔ ok = true) ∧
    ((deleteRegistration ok f db idv s).1 = true ↔ ok = true) ∧
    ((updateCategoryImage ok f db cname url s).1 = true ↔ ok = true) ∧
    ((updateCategoryFees ok f db cname afee ofee ho s).1 = true ↔ ok = true) ∧
    (ok = true →
      (updateRegistrationStatus now ok f db idv status uniqueId s).2.2
        = fetchData (updateRegistrationStatus now ok f db idv status uniqueId s).2.1 f s ∧
      (deleteRegistration ok f db idv s).2.2
        = fetchData (deleteRegistration ok f db idv s).2.1 f s ∧
      (updateCategoryImage ok f db cname url s).2.2
        = fetchData (updateCategoryImage ok f db cname url s).2.1 f s ∧
      (updateCategoryFees ok f db cname afee ofee ho s).2.2
        = fetchData (updateCategoryFees ok f db cname afee ofee ho s).2.1 f s) ∧
    (ok = false →
      (updateRegistrationStatus now ok f db idv status uniqueId s).2.2 = s ∧
      (deleteRegistration ok f db idv s).2.2 = s ∧
      (updateCategoryImage ok f db cname url s).2.2 = s ∧
      (updateCategoryFees ok f db cname afee ofee ho s).2.2 = s) := by
  cases ok <;>
    simp [updateRegistrationStatus, deleteRegistration, updateCategoryImage,
      updateCategoryFees]

/-- Witness for C6 at a concrete input: a successful delete returns a store
equal to the refresh of the post-delete remote store. -/
theorem mutators_return_write_outcome_witness :
    (deleteRegistration true fetchAllOk dbPendingOld "r1" {}).2.2
      = fetchData (deleteRegistration true fetchAllOk dbPendingOld "r1" {}).2.1
          fetchAllOk {} :=
  ((mutators_return_write_outcome true fetchAllOk dbPendingOld {} "now" "r1" "c" "u"
      UpdStatus.approved none 1 2 false).2.2.2.2.1 rfl).2.1

/-- C7: no mutator assigns any collection directly: for each of the five
mutators, the resulting local store is exactly the previous store when the
remote write fails, and exactly `fetchData` applied to the post-write remote
store when the write succeeds — so the six collections change only through a
subsequent refresh, never optimistically. -/
theorem mutators_only_refresh_collections (ins : Option (String × String)) (ok : Bool)
    (f : FetchOutcome) (db : RemoteDB) (s : Store) (input : RegistrationInput)
    (now idv cname url : String) (status : UpdStatus) (uniqueId : Option String)
    (afee ofee : Int) (ho : Bool) :
    (ins = none → (createRegistration ins f db input s).2.2 = s) ∧
    (ins ≠ none →
      (createRegistration ins f db input s).2.2
        = fetchData (createRegistration ins f db input s).2.1 f s) ∧
    (ok = false →
      (updateRegistrationStatus now ok f db idv status uniqueId s).2.2 = s ∧
      (deleteRegistration ok f db idv s).2.2 = s ∧
      (updateCategoryImage ok f db cname url s).2.2 = s ∧
      (updateCategoryFees ok f db cname afee ofee ho s).2.2 = s) ∧
    (ok = true →
      (updateRegistrationStatus now ok f db idv status uniqueId s).2.2
        = fetchData (updateRegistrationStatus now ok f db idv status uniqueId s).2.1 f s ∧
      (deleteRegistration ok f db idv s).2.2
        = fetchData (deleteRegistration ok f db idv s).2.1 f s ∧
      (updateCategoryImage ok f db cname url s).2.2
        = fetchData (updateCategoryImage ok f db cname url s).2.1 f s ∧
      (updateCategoryFees ok f db cname afee ofee ho s).2.2
        = fetchData (updateCategoryFees ok f db cname afee ofee ho s).2.1 f s) := by
  cases ins with
  | none =>
    cases ok <;>
      simp [createRegistration, updateRegistrationStatus, deleteRegistration,
        updateCategoryImage, updateCategoryFees]
  | some pair =>
    obtain ⟨idv2, ts⟩ := pair
    cases ok <;>
      simp [createRegistration, updateRegistrationStatus, deleteRegistration,
        updateCategoryImage, updateCategoryFees]

/-- Witness for C7 at a concrete input: a failed insert leaves the local
store exactly unchanged. -/
theorem mutators_only_refresh_collections_witness :
    (createRegistration none fetchAllOk dbPendingOld regInputW {}).2.2 = {} :=
  (mutators_only_refresh_collections none false fetchAllOk dbPendingOld {} regInputW
      "now" "r1" "c" "u" UpdStatus.approved none 1 2 false).1 rfl

/-- Helper: delivering one event never changes the subscription flag. -/
lemma deliverEvent_subscribed (p : ProviderState) (ev : Option Session) :
    (deliverEvent p ev).subscribed = p.subscribed := by
  by_cases h : p.subscribed = true <;> simp [deliverEvent, h]

/-- Helper: delivering any sequence of events never changes the subscription
flag. -/
lemma foldl_deliverEvent_subscribed (evs : List (Option Session)) (p : ProviderState) :
    (evs.foldl deliverEvent p).subscribed = p.subscribed := by
  induction evs generalizing p with
  | nil => rfl
  | cons e es ih => rw [List.foldl_cons, ih, deliverEvent_subscribed]

/-- C8: on mount the provider's user value is the user of the session
returned by the one `getSession()` query, or null when there is no session;
and after any nonempty event sequence, the user value is the one carried by
the last session-change event's session, or null when that event carries no
session. -/
theorem auth_user_tracks_session (initial : Option Session)
    (events : List (Option Session)) :
    (runProvider initial []).user = userFromSession initial ∧
    (∀ pre ev, events = pre ++ [ev] →
      (runProvider initial events).user = userFromSession ev) ∧
    (∀ sess, userFromSession (some sess) = some sess.user) ∧
    userFromSession none = none := by
  refine ⟨rfl, ?_, fun sess => rfl, rfl⟩
  rintro pre ev rfl
  unfold runProvider
  rw [List.foldl_append, List.foldl_cons, List.foldl_nil]
  have hsub : (pre.foldl deliverEvent (mountProvider initial)).subscribed = true := by
    rw [foldl_deliverEvent_subscribed]
    rfl
  simp [deliverEvent, hsub]

/-- Witness for C8 at a concrete input: mounting with an existing session for
"alice" yields user "alice" with no events, and a later event carrying no
session sets the user value to null. -/
theorem auth_user_tracks_session_witness :
    (runProvider (some { user := "alice" }) []).user = some "alice" ∧
    (runProvider (some { user := "alice" }) [none]).user = none :=
  ⟨((auth_user_tracks_session (some { user := "alice" }) []).1).trans rfl,
   ((auth_user_tracks_session (some { user := "alice" }) [none]).2.1 [] none rfl).trans
     rfl⟩

/-- C9: tearing the provider down releases the subscription, and once torn
down, no sequence of session-change events changes the provider state at all
(zero callbacks fire after teardown). -/
theorem teardown_stops_updates (p : ProviderState) (events : List (Option Session)) :
    (teardownProvider p).subscribed = false ∧
    events.foldl deliverEvent (teardownProvider p) = teardownProvider p := by
  constructor
  · rfl
  · induction events with
    | nil => rfl
    | cons e es ih =>
      rw [List.foldl_cons]
      have hstep : deliverEvent (teardownProvider p) e = teardownProvider p := by
        simp [deliverEvent, teardownProvider]
      rw [hstep, ih]

/-- C10: `useAuth` returns the nearest provider's context value — which
carries the provider's current user — when an `AuthProvider` is present above
the caller, and returns the context default `null` when no provider is
present. -/
theorem useAuth_context_spec (p : ProviderState) :
    useAuth (some (some (providerValue p))) = some { user := p.user } ∧
    useAuth none = none :=
  ⟨rfl, rfl⟩
